import Mathlib

/-!
Verification of the ads.txt discovery crawler (`src/adstxt/src/crawler/`).

Strings that travel through the crawler (domains, URLs, header values,
response bodies) are modelled as byte lists (`List Nat`).  The network is
modelled as an oracle mapping each request URL to the event observed by
`fetch_with_timeout`: either the timeout timer fires first, or the transport
completes with a connection-phase error, a later transport error, or an HTTP
response.  `fetch`, `fetch_with_timeout` and `crawle_until_find` are direct
translations of the functions of the same names in
`src/adstxt/src/crawler/crawler.rs`; `crawle_until_find` additionally returns
the list of URLs it fetched, in order, so that fetch-count properties can be
stated.  Request building (`Request::builder`, crawler.rs lines 131-136) is
not modelled: its URI-syntax failure mode is outside every claim.
-/

namespace Adstxt

/-- ASCII string literal as a byte list. -/
def ascii (s : String) : List Nat := s.data.map Char.toNat

/-- Rust `str::contains`: `strContains hay needle` is true iff `needle`
occurs as a contiguous substring of `hay`. -/
def strContains (hay needle : List Nat) : Bool :=
  match hay with
  | [] => needle.isEmpty
  | _ :: xs => needle.isPrefixOf hay || strContains xs needle

/-- Visible-ASCII test used by `http::HeaderValue::to_str`
(`location.to_str()` in crawler.rs line 152): a byte is accepted iff it is
in `32..=126` or is the tab character. -/
def visibleAscii (b : Nat) : Bool := (32 ≤ b && b < 127) || b == 9

/-- A byte is storable in an `http::HeaderValue`: `32..=255` except `127`,
or tab.  Header values outside this set cannot reach the crawler. -/
def validHeaderByte (b : Nat) : Bool := (32 ≤ b && b ≤ 255 && b != 127) || b == 9

/-- `HeaderValue::to_str` (crawler.rs line 152): succeeds with the same
bytes iff every byte is visible ASCII, else a `ToStrError`. -/
def headerToStr (bs : List Nat) : Except Unit (List Nat) :=
  if bs.all visibleAscii then Except.ok bs else Except.error ()

/-- UTF-8 continuation byte `0x80..=0xBF`. -/
def utf8Cont (b : Nat) : Bool := 128 ≤ b && b ≤ 191

/-- Validity check performed by Rust `String::from_utf8`
(crawler.rs line 167): exact UTF-8 well-formedness, rejecting overlong
encodings, surrogates and code points above `U+10FFFF`. -/
def utf8Valid : List Nat → Bool
  | [] => true
  | b :: rest =>
    if b ≤ 127 then utf8Valid rest
    else
      match rest with
      | [] => false
      | c :: rest2 =>
        if 194 ≤ b && b ≤ 223 then utf8Cont c && utf8Valid rest2
        else
          match rest2 with
          | [] => false
          | d :: rest3 =>
            if b == 224 then (160 ≤ c && c ≤ 191) && utf8Cont d && utf8Valid rest3
            else if (225 ≤ b && b ≤ 236) || b == 238 || b == 239 then
              utf8Cont c && utf8Cont d && utf8Valid rest3
            else if b == 237 then (128 ≤ c && c ≤ 159) && utf8Cont d && utf8Valid rest3
            else
              match rest3 with
              | [] => false
              | e :: rest4 =>
                if b == 240 then
                  (144 ≤ c && c ≤ 191) && utf8Cont d && utf8Cont e && utf8Valid rest4
                else if 241 ≤ b && b ≤ 243 then
                  utf8Cont c && utf8Cont d && utf8Cont e && utf8Valid rest4
                else if b == 244 then
                  (128 ≤ c && c ≤ 143) && utf8Cont d && utf8Cont e && utf8Valid rest4
                else false

/-- The `Response` enum of crawler.rs lines 124-128. -/
inductive Response where
  | NotFound : Response
  | Found (location : List Nat) : Response
  | Success (data : List Nat) : Response
deriving DecidableEq

/-- The crawler `Error` enum of `src/adstxt/src/crawler/error.rs`.
Payloads are dropped: only the variant matters to control flow. -/
inductive Error where
  | Request : Error
  | HeaderEncoding : Error
  | BodyEncoding : Error
  | Crawle : Error
  | Task : Error
deriving DecidableEq

deriving instance DecidableEq for Except

/-- An HTTP response as seen by `fetch` after `c.request(req)` succeeds:
status code, raw `Location` and `Content-Type` header values, and the body
read, which may itself fail with a transport error
(`body::to_bytes`, crawler.rs line 166). -/
structure HttpResponse where
  status : Nat
  location : Option (List Nat)
  contentType : Option (List Nat)
  body : Except Unit (List Nat)
deriving DecidableEq

/-- Outcome of `c.request(req).await` (crawler.rs line 138): a transport
error, flagged with `hyper::Error::is_connect`, or a response. -/
inductive TransportResult where
  | err (isConnect : Bool) : TransportResult
  | ok (resp : HttpResponse) : TransportResult
deriving DecidableEq

/-- `resp.status()` is one of `MOVED_PERMANENTLY | FOUND |
TEMPORARY_REDIRECT | PERMANENT_REDIRECT` (crawler.rs lines 143-149). -/
def isRedirectStatus (s : Nat) : Bool := s == 301 || s == 302 || s == 307 || s == 308

/-- `StatusCode::is_success` (crawler.rs line 160): `200..=299`. -/
def isSuccessStatus (s : Nat) : Bool := 200 ≤ s && s < 300

/-- Translation of `fetch` (crawler.rs lines 130-173), from the point where
the transport call has produced `tr`. -/
def fetch (tr : TransportResult) : Except Error Response :=
  match tr with
  | TransportResult.err true => Except.ok Response.NotFound
  | TransportResult.err false => Except.error Error.Crawle
  | TransportResult.ok resp =>
    if isRedirectStatus resp.status then
      match resp.location with
      | some loc =>
        match headerToStr loc with
        | Except.ok s => Except.ok (Response.Found s)
        | Except.error _ => Except.error Error.HeaderEncoding
      | none => Except.ok Response.NotFound
    else if isSuccessStatus resp.status then
      match resp.contentType with
      | some ctype =>
        if !(ascii (r"text/plain")).isPrefixOf ctype then Except.ok Response.NotFound
        else
          match resp.body with
          | Except.error _ => Except.error Error.Crawle
          | Except.ok data =>
            if utf8Valid data then Except.ok (Response.Success data)
            else Except.error Error.BodyEncoding
      | none =>
        match resp.body with
        | Except.error _ => Except.error Error.Crawle
        | Except.ok data =>
          if utf8Valid data then Except.ok (Response.Success data)
          else Except.error Error.BodyEncoding
    else Except.ok Response.NotFound

/-- What `fetch_with_timeout`'s `tokio::select!` observes for one URL:
either `time::delay_for(dur)` completes first, or the inner `fetch`
completes first with transport result `tr`. -/
inductive FetchEvent where
  | timeout : FetchEvent
  | completed (tr : TransportResult) : FetchEvent

/-- Translation of `fetch_with_timeout` (crawler.rs lines 175-184). -/
def fetch_with_timeout (ev : FetchEvent) : Except Error Response :=
  match ev with
  | FetchEvent.timeout => Except.ok Response.NotFound
  | FetchEvent.completed tr => fetch tr

/-- The network oracle: for each URL, the event `fetch_with_timeout`
observes when called on that URL. -/
def Oracle : Type := List Nat → FetchEvent

/-- `format!("http://{}/ads.txt", domain)` (crawler.rs line 105). -/
def httpUrl (domain : List Nat) : List Nat :=
  ascii (r"http://") ++ domain ++ ascii (r"/ads.txt")

/-- `format!("https://{}/ads.txt", domain)` (crawler.rs line 108). -/
def httpsUrl (domain : List Nat) : List Nat :=
  ascii (r"https://") ++ domain ++ ascii (r"/ads.txt")

/-- The second `fetch_with_timeout` call of `crawle_until_find`
(crawler.rs lines 118-121), with the URL trace threaded through. -/
def secondFetch (o : Oracle) (uri : List Nat) (trace : List (List Nat)) :
    Except Error (Option (List Nat)) × List (List Nat) :=
  match fetch_with_timeout (o uri) with
  | Except.error e => (Except.error e, trace ++ [uri])
  | Except.ok (Response.Success data) => (Except.ok (some data), trace ++ [uri])
  | Except.ok Response.NotFound => (Except.ok none, trace ++ [uri])
  | Except.ok (Response.Found _) => (Except.ok none, trace ++ [uri])

/-- Translation of `crawle_until_find` (crawler.rs lines 100-122).  The
second component is the list of URLs fetched, in order. -/
def crawle_until_find (o : Oracle) (domain : List Nat) :
    Except Error (Option (List Nat)) × List (List Nat) :=
  let uri1 := httpUrl domain
  match fetch_with_timeout (o uri1) with
  | Except.error e => (Except.error e, [uri1])
  | Except.ok (Response.Success data) => (Except.ok (some data), [uri1])
  | Except.ok (Response.Found location) =>
    if !(strContains location domain) || !(strContains location (ascii (r"ads.txt"))) then
      (Except.ok none, [uri1])
    else secondFetch o location [uri1]
  | Except.ok Response.NotFound => secondFetch o (httpsUrl domain) [uri1]

/-- Observable effect of one per-domain task (crawler.rs lines 45-62):
write the found body to the output file, emit a `log::error!` line naming
the domain, or do nothing.  `fs::write` failure (itself logged, non-fatal)
is not modelled; the file system is modelled separately for the Sink. -/
inductive TaskAction where
  | wrote (domain content : List Nat) : TaskAction
  | logged (domain : List Nat) : TaskAction
  | silent : TaskAction
deriving DecidableEq

/-- The body of the spawned task (crawler.rs lines 45-62): dispatch on the
result of `crawle_until_find`.  `BodyEncoding` and `HeaderEncoding` errors
hit the empty arm at lines 58-59. -/
def task (o : Oracle) (domain : List Nat) : TaskAction :=
  match (crawle_until_find o domain).1 with
  | Except.ok (some txt) => TaskAction.wrote domain txt
  | Except.ok none => TaskAction.silent
  | Except.error Error.BodyEncoding => TaskAction.silent
  | Except.error Error.HeaderEncoding => TaskAction.silent
  | Except.error _ => TaskAction.logged domain

/-- Rust `slice::chunks` (crawler.rs line 37): consecutive chunks of size
`k`, the last possibly smaller.  `chunks(0)` panics in Rust; here the
`k = 0` case returns `[]` and is outside every claim, which all require a
positive chunk size. -/
def chunksOf : Nat → List α → List (List α)
  | _, [] => []
  | 0, _ :: _ => []
  | k + 1, x :: xs => (x :: xs.take k) :: chunksOf (k + 1) (xs.drop k)
termination_by _ l => l.length
decreasing_by simp [List.length_drop]; omega

/-- The actions of a whole batch run of `crawle` (crawler.rs lines 14-81):
one spawned task per domain of each chunk, chunks processed in order.  The
flattened list is the per-domain effect sequence; `crawle` itself returns
`Ok(())` unless a task fails to join, which is outside this model. -/
def crawleActions (o : Oracle) (chunkSize : Nat) (domains : List (List Nat)) :
    List TaskAction :=
  ((chunksOf chunkSize domains).map (fun chunk => chunk.map (task o))).flatten

/-- A directory: partial map from file paths (byte lists) to contents. -/
def Dir : Type := List Nat → Option (List Nat)

/-- `path.push(domain)` on `out_dir` (crawler.rs lines 43, 48): the output
path `outDir/<domain>`. -/
def storePath (outDir domain : List Nat) : List Nat := outDir ++ ascii (r"/") ++ domain

/-- Modelled from the spec: the Sink (`fs::write(path, txt)`, crawler.rs
line 49) writes `content` at `outDir/<domain>`, creating the file or
overwriting an existing one; `fs::write`'s create-or-truncate semantics
are std-library behaviour, not code under `src/`. -/
def store (d : Dir) (outDir domain content : List Nat) : Dir :=
  fun p => if p = storePath outDir domain then some content else d p

/-! Helper lemmas, shared across claims. -/

/-- The second fetch always appends exactly its URL to the trace. -/
theorem secondFetch_snd (o : Oracle) (uri : List Nat) (trace : List (List Nat)) :
    (secondFetch o uri trace).2 = trace ++ [uri] := by
  unfold secondFetch
  cases fetch_with_timeout (o uri) with
  | error e => rfl
  | ok r => cases r <;> rfl

/-- `crawle_until_find` fetches at most two URLs. -/
theorem crawle_until_find_trace_le_two (o : Oracle) (d : List Nat) :
    ((crawle_until_find o d).2).length ≤ 2 := by
  simp only [crawle_until_find]
  split <;> try simp [secondFetch_snd]
  split <;> simp [secondFetch_snd]

/-- For a positive chunk size, flattening the chunks restores the list. -/
theorem chunksOf_flatten (k : Nat) (l : List α) (hk : 0 < k) :
    (chunksOf k l).flatten = l := by
  induction k, l using chunksOf.induct with
  | case1 k => simp [chunksOf]
  | case2 x xs => omega
  | case3 k x xs ih =>
    simp only [chunksOf, List.flatten_cons, List.cons_append]
    rw [ih (Nat.succ_pos k), List.take_append_drop]

/-- For a positive chunk size, chunks are nonempty and no longer than `k`. -/
theorem chunksOf_mem_length (k : Nat) (l : List α) (hk : 0 < k) :
    ∀ c ∈ chunksOf k l, c ≠ [] ∧ c.length ≤ k := by
  induction k, l using chunksOf.induct with
  | case1 k => simp [chunksOf]
  | case2 x xs => omega
  | case3 k x xs ih =>
    intro c hc
    simp only [chunksOf, List.mem_cons] at hc
    rcases hc with rfl | hc
    · refine ⟨by simp, ?_⟩
      simp [List.length_take]
    · exact ih (Nat.succ_pos k) c hc

/-- `chunksOf` of a positive size is empty only on the empty list. -/
theorem chunksOf_eq_nil_iff (k : Nat) (l : List α) :
    chunksOf (k + 1) l = [] ↔ l = [] := by
  cases l with
  | nil => simp [chunksOf]
  | cons x xs => simp [chunksOf]

/-- All chunks except possibly the last have length exactly `k`. -/
theorem chunksOf_dropLast_length (k : Nat) (l : List α) (hk : 0 < k) :
    ∀ c ∈ (chunksOf k l).dropLast, c.length = k := by
  induction k, l using chunksOf.induct with
  | case1 k => simp [chunksOf]
  | case2 x xs => omega
  | case3 k x xs ih =>
    intro c hc
    by_cases hr : xs.drop k = []
    · simp [chunksOf, hr] at hc
    · have hne : chunksOf (k + 1) (xs.drop k) ≠ [] :=
        fun h => hr ((chunksOf_eq_nil_iff k (xs.drop k)).1 h)
      simp only [chunksOf] at hc
      rw [List.dropLast_cons_of_ne_nil hne, List.mem_cons] at hc
      rcases hc with rfl | hc
      · have hlen : k < xs.length := by
          have := List.length_drop k xs
          rcases Nat.lt_or_ge k xs.length with h | h
          · exact h
          · exact absurd (List.drop_eq_nil_of_le h) hr
        simp [List.length_take]
        omega
      · exact ih (Nat.succ_pos k) c hc

/-- A batch's actions are exactly one task action per input domain,
in input order. -/
theorem crawleActions_eq_map (o : Oracle) (k : Nat) (hk : 0 < k)
    (domains : List (List Nat)) :
    crawleActions o k domains = domains.map (task o) := by
  unfold crawleActions
  rw [← List.map_flatten, chunksOf_flatten k domains hk]

/-! Claim theorems. -/

/-- Claim C1: if the first (http) fetch yields `NotFound`, the resolver
performs exactly one more fetch, to `https://d/ads.txt`; if that second
fetch yields `Redirect` or `NotFound` the resolver returns not-found; and
no resolver run ever issues more than two fetches. -/
theorem C1_http_notfound_then_https_once (o : Oracle) (d : List Nat)
    (h : fetch_with_timeout (o (httpUrl d)) = Except.ok Response.NotFound) :
    (crawle_until_find o d).2 = [httpUrl d, httpsUrl d] ∧
    ((fetch_with_timeout (o (httpsUrl d)) = Except.ok Response.NotFound ∨
      ∃ L, fetch_with_timeout (o (httpsUrl d)) = Except.ok (Response.Found L)) →
      (crawle_until_find o d).1 = Except.ok none) ∧
    ∀ (o2 : Oracle) (d2 : List Nat), ((crawle_until_find o2 d2).2).length ≤ 2 := by
  refine ⟨?_, ?_, fun o2 d2 => crawle_until_find_trace_le_two o2 d2⟩
  · simp [crawle_until_find, h, secondFetch_snd]
  · intro h2
    simp only [crawle_until_find, h]
    rcases h2 with h2 | ⟨L, h2⟩ <;> simp [secondFetch, h2]

/-- Oracle under which every fetch times out, hence yields `NotFound`. -/
def oTimeout : Oracle := fun _ => FetchEvent.timeout

/-- Witness for C1 at a concrete domain and oracle. -/
theorem C1_witness :
    (crawle_until_find oTimeout (ascii (r"a.com"))).2 =
      [httpUrl (ascii (r"a.com")), httpsUrl (ascii (r"a.com"))] ∧
    (crawle_until_find oTimeout (ascii (r"a.com"))).1 = Except.ok none :=
  ⟨(C1_http_notfound_then_https_once oTimeout (ascii (r"a.com")) rfl).1,
   (C1_http_notfound_then_https_once oTimeout (ascii (r"a.com")) rfl).2.1 (Or.inl rfl)⟩

/-- Claim C2: if the first (http) fetch returns `Success` with body `b`,
the resolver returns `b` as found and makes no second fetch. -/
theorem C2_success_on_first_fetch (o : Oracle) (d b : List Nat)
    (h : fetch_with_timeout (o (httpUrl d)) = Except.ok (Response.Success b)) :
    crawle_until_find o d = (Except.ok (some b), [httpUrl d]) := by
  simp [crawle_until_find, h]

/-- Oracle under which every fetch returns a plain 200 with body `a=1`. -/
def oPlain200 : Oracle := fun _ =>
  FetchEvent.completed (TransportResult.ok ⟨200, none, none, Except.ok (ascii (r"a=1"))⟩)

/-- Witness for C2 at a concrete domain and oracle. -/
theorem C2_witness :
    crawle_until_find oPlain200 (ascii (r"a.com")) =
      (Except.ok (some (ascii (r"a=1"))), [httpUrl (ascii (r"a.com"))]) :=
  C2_success_on_first_fetch oPlain200 (ascii (r"a.com")) (ascii (r"a=1")) (by decide)

/-- Claim C3: a redirect location lacking the domain substring or the
`ads.txt` substring terminates the resolver with not-found and no further
fetch; a location containing both becomes the URL of the single second
fetch. -/
theorem C3_redirect_validation (o : Oracle) (d L : List Nat)
    (h : fetch_with_timeout (o (httpUrl d)) = Except.ok (Response.Found L)) :
    ((strContains L d = false ∨ strContains L (ascii (r"ads.txt")) = false) →
      crawle_until_find o d = (Except.ok none, [httpUrl d])) ∧
    (strContains L d = true → strContains L (ascii (r"ads.txt")) = true →
      (crawle_until_find o d).2 = [httpUrl d, L]) := by
  constructor
  · intro hv
    simp only [crawle_until_find, h]
    rcases hv with hv | hv <;> simp [hv]
  · intro h1 h2
    simp [crawle_until_find, h, h1, h2, secondFetch_snd]

/-- Oracle answering every fetch with a redirect to an unrelated host. -/
def oRedirForeign : Oracle := fun _ =>
  FetchEvent.completed
    (TransportResult.ok ⟨301, some (ascii (r"http://evil.com/page")), none, Except.ok []⟩)

/-- Oracle answering the http URL of `a.com` with a redirect to
`https://a.com/ads.txt` and timing out every other fetch. -/
def oRedirSame : Oracle := fun uri =>
  if uri = httpUrl (ascii (r"a.com")) then
    FetchEvent.completed
      (TransportResult.ok ⟨301, some (ascii (r"https://a.com/ads.txt")), none, Except.ok []⟩)
  else FetchEvent.timeout

/-- Witness for C3: both the rejected-redirect branch and the
followed-redirect branch at concrete inputs. -/
theorem C3_witness :
    crawle_until_find oRedirForeign (ascii (r"a.com")) =
      (Except.ok none, [httpUrl (ascii (r"a.com"))]) ∧
    (crawle_until_find oRedirSame (ascii (r"a.com"))).2 =
      [httpUrl (ascii (r"a.com")), ascii (r"https://a.com/ads.txt")] :=
  ⟨(C3_redirect_validation oRedirForeign (ascii (r"a.com"))
      (ascii (r"http://evil.com/page")) (by decide)).1 (Or.inl (by decide)),
   (C3_redirect_validation oRedirSame (ascii (r"a.com"))
      (ascii (r"https://a.com/ads.txt")) (by decide)).2 (by decide) (by decide)⟩

/-- Claim C4: a timeout firing before the fetch completes, and a
connect-phase transport failure, both make the guarded fetch return
`Ok(NotFound)`, never an error. -/
theorem C4_timeout_and_connect_failure_notfound :
    fetch_with_timeout FetchEvent.timeout = Except.ok Response.NotFound ∧
    fetch_with_timeout (FetchEvent.completed (TransportResult.err true)) =
      Except.ok Response.NotFound :=
  ⟨rfl, rfl⟩

/-- A 2xx status is never one of the four redirect statuses. -/
theorem success_not_redirect {s : Nat} (hs : isSuccessStatus s = true) :
    isRedirectStatus s = false := by
  simp only [isSuccessStatus, Bool.and_eq_true, decide_eq_true_eq] at hs
  simp only [isRedirectStatus, Bool.or_eq_false_iff, beq_eq_false_iff_ne, ne_eq]
  omega

/-- A 301 response carrying a `Location` value with the byte `255`: a
representable `HeaderValue` (bytes `128..=255` are storable) that is not
visible ASCII, so `location.to_str()` fails. -/
def respBadLocation : HttpResponse := ⟨301, some [255], none, Except.ok []⟩

/-- Counterexample to claim C5: a 301 response with a `Location` header
present yields a `HeaderEncoding` error, not `Redirect`, because the
header value is not visible ASCII. -/
theorem C5_counterexample :
    isRedirectStatus respBadLocation.status = true ∧
    respBadLocation.location = some [255] ∧
    validHeaderByte 255 = true ∧
    fetch (TransportResult.ok respBadLocation) = Except.error Error.HeaderEncoding := by
  decide

/-- Claim C5 as amended: on status 301, 302, 307 or 308, an absent
`Location` yields `NotFound`; a present `Location` yields
`Redirect{location}` when its value is visible ASCII and a
`HeaderEncoding` error otherwise; and every status that is neither a
redirect status nor 2xx yields `NotFound`. -/
theorem C5_amended_status_classification (resp : HttpResponse)
    (hr : isRedirectStatus resp.status = true) :
    (resp.location = none → fetch (TransportResult.ok resp) = Except.ok Response.NotFound) ∧
    (∀ L, resp.location = some L →
      (L.all visibleAscii = true →
        fetch (TransportResult.ok resp) = Except.ok (Response.Found L)) ∧
      (L.all visibleAscii = false →
        fetch (TransportResult.ok resp) = Except.error Error.HeaderEncoding)) ∧
    (∀ r2 : HttpResponse, isRedirectStatus r2.status = false →
      isSuccessStatus r2.status = false →
      fetch (TransportResult.ok r2) = Except.ok Response.NotFound) := by
  refine ⟨?_, ?_, ?_⟩
  · intro hl; simp [fetch, hr, hl]
  · intro L hl
    constructor
    · intro hv; simp [fetch, hr, hl, headerToStr, hv]
    · intro hv; simp [fetch, hr, hl, headerToStr, hv]
  · intro r2 h1 h2; simp [fetch, h1, h2]

/-- A 302 response redirecting to a well-formed ASCII location. -/
def respRedirOk : HttpResponse :=
  ⟨302, some (ascii (r"http://a.com/ads.txt")), none, Except.ok []⟩

/-- Witness for the amended C5 at a concrete 302 response. -/
theorem C5_amended_witness :
    fetch (TransportResult.ok respRedirOk) =
      Except.ok (Response.Found (ascii (r"http://a.com/ads.txt"))) :=
  ((C5_amended_status_classification respRedirOk (by decide)).2.1
    (ascii (r"http://a.com/ads.txt")) rfl).1 (by decide)

/-- Content-type acceptance test of `fetch` (crawler.rs lines 161-165):
absent, or beginning with the bytes of `text/plain`. -/
def ctypeOk (resp : HttpResponse) : Bool :=
  match resp.contentType with
  | none => true
  | some ctype => (ascii (r"text/plain")).isPrefixOf ctype

/-- A 200 response declaring content-type `text/plainx`, a media type
other than `text/plain`, with a valid UTF-8 body. -/
def respPlainx : HttpResponse :=
  ⟨200, none, some (ascii (r"text/plainx")), Except.ok (ascii (r"a=1"))⟩

/-- Counterexample to claim C6: the content-type check is a byte-prefix
test, so the content-type `text/plainx` — a content-type other than
`text/plain` — is accepted and the fetch returns `Success`, not
`NotFound`. -/
theorem C6_counterexample :
    isSuccessStatus respPlainx.status = true ∧
    respPlainx.contentType = some (ascii (r"text/plainx")) ∧
    ascii (r"text/plainx") ≠ ascii (r"text/plain") ∧
    fetch (TransportResult.ok respPlainx) = Except.ok (Response.Success (ascii (r"a=1"))) := by
  decide

/-- Claim C6 as amended: for a 2xx response, a declared content-type whose
bytes do not start with `text/plain` yields `NotFound`; a content-type
starting with `text/plain`, or an absent one, is accepted; an accepted
response's body is read fully and UTF-8-checked, a failure being the
`BodyEncoding` error, not `NotFound`. -/
theorem C6_amended_content_type_startsWith (resp : HttpResponse)
    (hs : isSuccessStatus resp.status = true) :
    (∀ ctype, resp.contentType = some ctype →
      (ascii (r"text/plain")).isPrefixOf ctype = false →
      fetch (TransportResult.ok resp) = Except.ok Response.NotFound) ∧
    (∀ data, resp.body = Except.ok data → ctypeOk resp = true →
      (utf8Valid data = true →
        fetch (TransportResult.ok resp) = Except.ok (Response.Success data)) ∧
      (utf8Valid data = false →
        fetch (TransportResult.ok resp) = Except.error Error.BodyEncoding)) := by
  have hr : isRedirectStatus resp.status = false := success_not_redirect hs
  constructor
  · intro ctype hct hpre
    simp [fetch, hr, hs, hct, hpre]
  · intro data hb hct
    cases hcc : resp.contentType with
    | none =>
      constructor <;> intro hv <;> simp [fetch, hr, hs, hcc, hb, hv]
    | some ctype =>
      simp only [ctypeOk, hcc] at hct
      constructor <;> intro hv <;> simp [fetch, hr, hs, hcc, hct, hb, hv]

/-- A 200 response with content-type `text/plain; charset=utf-8`. -/
def respPlainCharset : HttpResponse :=
  ⟨200, none, some (ascii (r"text/plain; charset=utf-8")), Except.ok (ascii (r"a=1"))⟩

/-- Witness for the amended C6: a parameterised `text/plain` content-type
is accepted and the body returned. -/
theorem C6_amended_witness :
    fetch (TransportResult.ok respPlainCharset) =
      Except.ok (Response.Success (ascii (r"a=1"))) :=
  ((C6_amended_content_type_startsWith respPlainCharset (by decide)).2
    (ascii (r"a=1")) rfl (by decide)).1 (by decide)

/-- Oracle returning a typeless 200 whose body byte `255` is not UTF-8. -/
def oBadUtf8 : Oracle := fun _ =>
  FetchEvent.completed (TransportResult.ok ⟨200, none, none, Except.ok [255]⟩)

/-- Counterexample to claim C7: a UTF-8 body-decode failure hits the empty
match arm of crawler.rs lines 58-59, so the task does nothing at all — in
particular it emits no log entry for the domain. -/
theorem C7_counterexample :
    (crawle_until_find oBadUtf8 (ascii (r"a.com"))).1 = Except.error Error.BodyEncoding ∧
    task oBadUtf8 (ascii (r"a.com")) = TaskAction.silent ∧
    task oBadUtf8 (ascii (r"a.com")) ≠ TaskAction.logged (ascii (r"a.com")) := by
  decide

/-- Claim C7 as amended: a per-domain `BodyEncoding` or `HeaderEncoding`
error is swallowed silently: the task writes no file, emits no log entry,
and does not abort the batch. -/
theorem C7_amended_decode_errors_silent (o : Oracle) (d : List Nat)
    (h : (crawle_until_find o d).1 = Except.error Error.BodyEncoding ∨
         (crawle_until_find o d).1 = Except.error Error.HeaderEncoding) :
    task o d = TaskAction.silent := by
  rcases h with h | h <;> simp [task, h]

/-- Witness for the amended C7 at the concrete bad-UTF-8 oracle. -/
theorem C7_amended_witness : task oBadUtf8 (ascii (r"a.com")) = TaskAction.silent :=
  C7_amended_decode_errors_silent oBadUtf8 (ascii (r"a.com")) (Or.inl (by decide))

/-- Claim C8: for a positive chunk size, the scheduler partitions the
domain list into consecutive chunks of that size (the last possibly
smaller), spawns exactly one task per domain, and so attempts each domain
exactly once per batch. -/
theorem C8_chunked_one_task_per_domain (o : Oracle) (k : Nat) (hk : 0 < k)
    (domains : List (List Nat)) :
    (chunksOf k domains).flatten = domains ∧
    crawleActions o k domains = domains.map (task o) ∧
    (crawleActions o k domains).length = domains.length ∧
    (∀ c ∈ chunksOf k domains, c ≠ [] ∧ c.length ≤ k) ∧
    (∀ c ∈ (chunksOf k domains).dropLast, c.length = k) := by
  refine ⟨chunksOf_flatten k domains hk, crawleActions_eq_map o k hk domains, ?_,
    chunksOf_mem_length k domains hk, chunksOf_dropLast_length k domains hk⟩
  rw [crawleActions_eq_map o k hk domains, List.length_map]

/-- Witness for C8: chunk size 2 over three domains. -/
theorem C8_witness :
    crawleActions oTimeout 2 [ascii (r"a.com"), ascii (r"b.com"), ascii (r"c.com")] =
      [ascii (r"a.com"), ascii (r"b.com"), ascii (r"c.com")].map (task oTimeout) ∧
    (chunksOf 2 [ascii (r"a.com"), ascii (r"b.com"), ascii (r"c.com")]).flatten =
      [ascii (r"a.com"), ascii (r"b.com"), ascii (r"c.com")] :=
  ⟨(C8_chunked_one_task_per_domain oTimeout 2 (by decide)
      [ascii (r"a.com"), ascii (r"b.com"), ascii (r"c.com")]).2.1,
   (C8_chunked_one_task_per_domain oTimeout 2 (by decide)
      [ascii (r"a.com"), ascii (r"b.com"), ascii (r"c.com")]).1⟩

/-- Claim C9: the Sink writes the content at `outDir/<domain>`,
overwriting any existing file there, and storing twice with the same
domain and content equals storing once with the final content identical. -/
theorem C9_sink_overwrites_idempotent :
    ∀ (d : Dir) (outDir domain content : List Nat),
      store d outDir domain content (storePath outDir domain) = some content ∧
      store (store d outDir domain content) outDir domain content =
        store d outDir domain content := by
  intro d o dom c
  refine ⟨by simp [store], ?_⟩
  funext p
  by_cases h : p = storePath o dom <;> simp [store, h]

/-- Claim C10: only connect-phase transport failures map to `NotFound`;
every other transport error — at request time or while reading the body —
becomes the `Crawle` error, which the per-domain task logs with the
domain name, the batch still producing an action for every domain. -/
theorem C10_nonconnect_errors_logged (o : Oracle) (d : List Nat) (k : Nat)
    (domains : List (List Nat)) (hk : 0 < k) (hd : d ∈ domains)
    (hcr : (crawle_until_find o d).1 = Except.error Error.Crawle) :
    fetch (TransportResult.err true) = Except.ok Response.NotFound ∧
    fetch (TransportResult.err false) = Except.error Error.Crawle ∧
    (∀ resp : HttpResponse, isSuccessStatus resp.status = true → ctypeOk resp = true →
      resp.body = Except.error () →
      fetch (TransportResult.ok resp) = Except.error Error.Crawle) ∧
    task o d = TaskAction.logged d ∧
    TaskAction.logged d ∈ crawleActions o k domains ∧
    (crawleActions o k domains).length = domains.length := by
  have ht : task o d = TaskAction.logged d := by simp [task, hcr]
  refine ⟨rfl, rfl, ?_, ht, ?_, ?_⟩
  · intro resp hs hct hb
    have hr : isRedirectStatus resp.status = false := success_not_redirect hs
    cases hcc : resp.contentType with
    | none => simp [fetch, hr, hs, hcc, hb]
    | some ctype =>
      simp only [ctypeOk, hcc] at hct
      simp [fetch, hr, hs, hcc, hct, hb]
  · rw [crawleActions_eq_map o k hk domains]
    exact ht ▸ List.mem_map_of_mem (task o) hd
  · rw [crawleActions_eq_map o k hk domains, List.length_map]

/-- Oracle under which every transport call fails after connecting. -/
def oConnReset : Oracle := fun _ => FetchEvent.completed (TransportResult.err false)

/-- Witness for C10 at a concrete domain and one-domain batch. -/
theorem C10_witness :
    task oConnReset (ascii (r"b.com")) = TaskAction.logged (ascii (r"b.com")) ∧
    TaskAction.logged (ascii (r"b.com")) ∈
      crawleActions oConnReset 1 [ascii (r"b.com")] :=
  ⟨(C10_nonconnect_errors_logged oConnReset (ascii (r"b.com")) 1 [ascii (r"b.com")]
      (by decide) (by simp) (by decide)).2.2.2.1,
   (C10_nonconnect_errors_logged oConnReset (ascii (r"b.com")) 1 [ascii (r"b.com")]
      (by decide) (by simp) (by decide)).2.2.2.2.1⟩

end Adstxt
